import Mathlib

/-
  Verification of the bevy-noti-box notification plugin (src/lib.rs).

  The embedding models time and color channels as exact rationals (the Rust
  code uses f32; all constants involved — 0.5, 0.4, the default 5-second
  duration — and the frame deltas used in the concrete runs are exactly
  representable, so the rational model coincides with the float computation
  on every input considered here).

  Bevy collaborator types (Timer, Color, Val, UiRect, Node, Interaction) are
  embedded with exactly the fields and operations the plugin uses; the
  `BackgroundColor`/`BorderColor`/`TextColor` newtype wrappers around `Color`
  are flattened since the plugin only ever accesses the wrapped `Color`.
-/

set_option linter.unusedVariables false

namespace BevyNotiBox

/-! ## Collaborator types: timers -/

inductive TimerMode
  | Once
  | Repeating
  deriving DecidableEq, Repr

/-- Bevy `Timer` restricted to the fields the plugin reads: stored duration,
elapsed time, mode, the stored `finished` flag and the
`times_finished_this_tick > 0` flag exposed as `just_finished()`. -/
structure Timer where
  duration : ℚ
  elapsed : ℚ
  mode : TimerMode
  finished : Bool
  justFinished : Bool
  deriving DecidableEq, Repr

def Timer.from_seconds (d : ℚ) (m : TimerMode) : Timer :=
  { duration := d, elapsed := 0, mode := m, finished := false, justFinished := false }

def Timer.elapsed_secs (t : Timer) : ℚ := t.elapsed

def Timer.remaining_secs (t : Timer) : ℚ := t.duration - t.elapsed

/-- Bevy `Timer::tick`: a finished non-repeating timer only resets the
just-finished flag; otherwise elapsed advances by the delta, and on reaching
the duration a `Once` timer clamps elapsed to the duration and sets the
finished flags, while a `Repeating` timer wraps elapsed modulo the duration. -/
def Timer.tick (t : Timer) (delta : ℚ) : Timer :=
  if t.mode ≠ TimerMode.Repeating ∧ t.finished then
    { t with justFinished := false }
  else
    let e := t.elapsed + delta
    if e ≥ t.duration then
      match t.mode with
      | TimerMode.Once =>
          { t with elapsed := t.duration, finished := true, justFinished := true }
      | TimerMode.Repeating =>
          { t with
            elapsed := if t.duration = 0 then 0 else e - t.duration * ((⌊e / t.duration⌋ : ℤ) : ℚ),
            finished := true, justFinished := true }
    else
      { t with elapsed := e, finished := false, justFinished := false }

/-! ## Collaborator types: colors, layout, input -/

structure Color where
  red : ℚ
  green : ℚ
  blue : ℚ
  alpha : ℚ
  deriving DecidableEq, Repr

def Color.set_alpha (c : Color) (a : ℚ) : Color := { c with alpha := a }

def Color.WHITE : Color := ⟨1, 1, 1, 1⟩

def Color.BLACK : Color := ⟨0, 0, 0, 1⟩

inductive Val
  | Auto
  | Px (v : ℚ)
  | Percent (v : ℚ)
  deriving DecidableEq, Repr

structure UiRect where
  left : Val
  right : Val
  top : Val
  bottom : Val
  deriving DecidableEq, Repr

def UiRect.all (v : Val) : UiRect := ⟨v, v, v, v⟩

inductive JustifyContent
  | Default
  | Center
  deriving DecidableEq, Repr

inductive AlignContent
  | Default
  | Center
  deriving DecidableEq, Repr

inductive AlignItems
  | Default
  | Center
  deriving DecidableEq, Repr

inductive JustifyItems
  | Legacy
  | Center
  deriving DecidableEq, Repr

inductive JustifySelf
  | Auto
  | Start
  | Center
  | End
  deriving DecidableEq, Repr

inductive AlignSelf
  | Auto
  | FlexStart
  | Center
  | FlexEnd
  deriving DecidableEq, Repr

/-- Bevy `Node`, restricted to the fields `pos_to_style` sets (plus their
defaults); the remaining defaulted style fields are untouched by the plugin. -/
structure Node where
  width : Val
  height : Val
  margin : UiRect
  justify_content : JustifyContent
  align_content : AlignContent
  align_items : AlignItems
  justify_items : JustifyItems
  justify_self : JustifySelf
  align_self : AlignSelf
  deriving DecidableEq, Repr

def Node.default : Node :=
  { width := Val.Auto, height := Val.Auto, margin := UiRect.all (Val.Px 0),
    justify_content := JustifyContent.Default, align_content := AlignContent.Default,
    align_items := AlignItems.Default, justify_items := JustifyItems.Legacy,
    justify_self := JustifySelf.Auto, align_self := AlignSelf.Auto }

structure TextFont where
  font_size : ℚ
  deriving DecidableEq, Repr

def TextFont.default : TextFont := ⟨20⟩

inductive Interaction
  | Pressed
  | Hovered
  | NoneI
  deriving DecidableEq, Repr

/-! ## The plugin's own data model (src/lib.rs) -/

def BACKGROUND_COLOR : Color := Color.BLACK

def DEFAULT_ANIMATION_DURATION : ℚ := 1/2

inductive NotiPosition
  | TopRight
  | TopLeft
  | TopMid
  | MidLeft
  | Center
  | MidRight
  | BotLeft
  | BotMid
  | BotRight
  deriving DecidableEq, Repr

inductive AnimationState
  | Start
  | Middle
  | End
  deriving DecidableEq, Repr

structure NotiBoxEvent where
  msg : String
  font : TextFont
  text_color : Color
  pos : NotiPosition
  show_time : ℚ
  background_color : Color
  width : Val
  height : Val
  deriving DecidableEq, Repr

def NotiBoxEvent.default : NotiBoxEvent :=
  { msg := "", font := TextFont.default, text_color := Color.WHITE,
    pos := NotiPosition.TopRight, show_time := 5,
    background_color := BACKGROUND_COLOR,
    width := Val.Percent 20, height := Val.Percent 20 }

def NotiBoxEvent.from_message (msg : String) : NotiBoxEvent :=
  { NotiBoxEvent.default with msg := msg }

structure NotiBox where
  states : List (AnimationState × Timer)
  deriving DecidableEq, Repr

/-! ## pos_to_style -/

def pos_to_style (pos : NotiPosition) : Node :=
  let ret : Node :=
    { Node.default with
      width := Val.Percent 20, height := Val.Percent 20,
      margin := UiRect.all (Val.Px 5),
      justify_content := JustifyContent.Center, align_content := AlignContent.Center,
      align_items := AlignItems.Center, justify_items := JustifyItems.Center }
  match pos with
  | NotiPosition.TopLeft =>
      { ret with justify_self := JustifySelf.Start, align_self := AlignSelf.FlexStart }
  | NotiPosition.TopMid =>
      { ret with justify_self := JustifySelf.Center, align_self := AlignSelf.FlexStart }
  | NotiPosition.TopRight =>
      { ret with justify_self := JustifySelf.End, align_self := AlignSelf.FlexStart }
  | NotiPosition.MidLeft =>
      { ret with justify_self := JustifySelf.Start, align_self := AlignSelf.Center }
  | NotiPosition.Center =>
      { ret with justify_self := JustifySelf.Center, align_self := AlignSelf.Center }
  | NotiPosition.MidRight =>
      { ret with justify_self := JustifySelf.End, align_self := AlignSelf.Center }
  | NotiPosition.BotLeft =>
      { ret with justify_self := JustifySelf.Start, align_self := AlignSelf.FlexEnd }
  | NotiPosition.BotMid =>
      { ret with justify_self := JustifySelf.Center, align_self := AlignSelf.FlexEnd }
  | NotiPosition.BotRight =>
      { ret with justify_self := JustifySelf.End, align_self := AlignSelf.FlexEnd }

/-! ## listen_event -/

/-- The component bundle `listen_event` spawns for one `NotiBoxEvent`. -/
structure SpawnedBox where
  noti_box : NotiBox
  node : Node
  background_color : Color
  border_color : Color
  text : String
  font : TextFont
  text_color : Color
  deriving DecidableEq, Repr

def listen_event (noti : NotiBoxEvent) : SpawnedBox :=
  let states :=
    if noti.show_time > 0 then
      [(AnimationState.Start, Timer.from_seconds DEFAULT_ANIMATION_DURATION TimerMode.Once),
       (AnimationState.Middle, Timer.from_seconds noti.show_time TimerMode.Once),
       (AnimationState.End, Timer.from_seconds DEFAULT_ANIMATION_DURATION TimerMode.Once)]
    else []
  let border_color := Color.set_alpha noti.background_color (2/5)
  let background_color := Color.set_alpha noti.background_color 0
  let text_color := Color.set_alpha noti.text_color 0
  { noti_box := ⟨states⟩,
    node := pos_to_style noti.pos,
    background_color := background_color,
    border_color := border_color,
    text := noti.msg,
    font := noti.font,
    text_color := text_color }

/-! ## listen_click -/

/-- The despawn decision `listen_click` makes for one changed interaction. -/
def listen_click (i : Interaction) : Bool := i == Interaction.Pressed

/-! ## countdown -/

/-- Per-phase opacity written by `countdown` after ticking the phase's timer:
`elapsed / duration` while fading in, `1` while holding, and
`remaining / duration` while fading out. -/
def startAlpha (t : Timer) : ℚ := t.elapsed_secs / t.duration

def endAlpha (t : Timer) : ℚ := t.remaining_secs / t.duration

/-- The inner loop of `countdown` over one `NotiBox`'s phase list: skip
finished timers, tick the first unfinished one, write the phase's opacity
into the background and text colors, request a despawn when the End timer
just finished, and stop (the Rust `break`). Returns the updated phase list,
the updated background and text colors, and the despawn request. -/
def countdownStates (delta : ℚ) :
    List (AnimationState × Timer) → Color → Color →
      List (AnimationState × Timer) × Color × Color × Bool
  | [], bg, tc => ([], bg, tc, false)
  | (st, t) :: rest, bg, tc =>
    if t.finished then
      let r := countdownStates delta rest bg tc
      ((st, t) :: r.1, r.2.1, r.2.2.1, r.2.2.2)
    else
      let ticked := t.tick delta
      match st with
      | AnimationState.Start =>
          ((st, ticked) :: rest, bg.set_alpha (startAlpha ticked),
           tc.set_alpha (startAlpha ticked), false)
      | AnimationState.Middle =>
          ((st, ticked) :: rest, bg.set_alpha 1, tc.set_alpha 1, false)
      | AnimationState.End =>
          ((st, ticked) :: rest, bg.set_alpha (endAlpha ticked),
           tc.set_alpha (endAlpha ticked), ticked.justFinished)

/-- The per-entity view the `countdown` system queries (plus the border color,
which the query does not include and the system therefore never mutates). -/
structure BoxEntity where
  noti_box : NotiBox
  background_color : Color
  border_color : Color
  text_color : Color
  deriving DecidableEq, Repr

def SpawnedBox.entity (s : SpawnedBox) : BoxEntity :=
  ⟨s.noti_box, s.background_color, s.border_color, s.text_color⟩

/-- One `countdown` visit of one entity: run the phase loop over its mutable
components; the Bool is the despawn command issued for this entity. -/
def countdownEntity (delta : ℚ) (e : BoxEntity) : BoxEntity × Bool :=
  let r := countdownStates delta e.noti_box.states e.background_color e.text_color
  ({ e with noti_box := ⟨r.1⟩, background_color := r.2.1, text_color := r.2.2.1 }, r.2.2.2)

/-- One frame of the `countdown` system for one entity, with the despawn
command applied at the end of the frame (`none` = entity despawned). -/
def frameStep (delta : ℚ) : Option BoxEntity → Option BoxEntity
  | none => none
  | some e =>
    let r := countdownEntity delta e
    if r.2 then none else some r.1

/-- A sequence of frames with the given per-frame deltas. -/
def runFrames (deltas : List ℚ) (s : Option BoxEntity) : Option BoxEntity :=
  deltas.foldl (fun acc d => frameStep d acc) s


/-! ## Concrete scenario inputs -/

def c1Event : NotiBoxEvent := { NotiBoxEvent.default with show_time := 2 }

/-! ## Claims -/

/-- Claim C1: for a request with visible_duration = 2.0 s, under simulated
frames of 0.25 s each: after 0.5 s elapsed the computed opacity is 1 and the
Start phase's timer is finished while Middle and End are not (the record has
moved on to Middle); after 2.5 s the opacity is still 1, Middle's timer just
completed (elapsed = 2 = its duration) and End has not started (elapsed = 0);
after 3.0 s the countdown system has despawned the element. -/
theorem C1_lifecycle_checkpoints :
    ((runFrames (List.replicate 2 (1/4)) (some (listen_event c1Event).entity)).map
      (fun e => (e.background_color.alpha, e.text_color.alpha,
        e.noti_box.states.map (fun p => p.2.finished))) =
      some (1, 1, [true, false, false])) ∧
    ((runFrames (List.replicate 10 (1/4)) (some (listen_event c1Event).entity)).map
      (fun e => (e.background_color.alpha, e.text_color.alpha,
        e.noti_box.states.map (fun p => (p.2.finished, p.2.elapsed)))) =
      some (1, 1, [(true, 1/2), (true, 2), (false, 0)])) ∧
    runFrames (List.replicate 12 (1/4)) (some (listen_event c1Event).entity) = none := by
  refine ⟨?_, ?_, ?_⟩ <;>
    norm_num [runFrames, frameStep, countdownEntity, countdownStates, Timer.tick,
      Timer.from_seconds, Timer.elapsed_secs, Timer.remaining_secs, startAlpha, endAlpha,
      Color.set_alpha, listen_event, pos_to_style, c1Event, NotiBoxEvent.default,
      DEFAULT_ANIMATION_DURATION, BACKGROUND_COLOR, Color.BLACK, Color.WHITE,
      SpawnedBox.entity, List.replicate]

/-- Claim C2: for every request, if show_time > 0 the spawned record's phase
list is exactly (Start, one-shot 0.5 s), (Middle, one-shot show_time s),
(End, one-shot 0.5 s), each non-repeating with zero elapsed and cleared
flags; if show_time ≤ 0 the phase list is empty. -/
theorem C2_phase_list (noti : NotiBoxEvent) :
    (0 < noti.show_time →
      (listen_event noti).noti_box.states =
        [(AnimationState.Start, { duration := 1/2, elapsed := 0, mode := TimerMode.Once,
                                  finished := false, justFinished := false }),
         (AnimationState.Middle, { duration := noti.show_time, elapsed := 0,
                                   mode := TimerMode.Once, finished := false,
                                   justFinished := false }),
         (AnimationState.End, { duration := 1/2, elapsed := 0, mode := TimerMode.Once,
                                finished := false, justFinished := false })]) ∧
    (noti.show_time ≤ 0 → (listen_event noti).noti_box.states = []) := by
  constructor
  · intro h
    simp [listen_event, Timer.from_seconds, DEFAULT_ANIMATION_DURATION, h]
  · intro h
    simp [listen_event, Timer.from_seconds, not_lt.mpr h]

/-- Witness for C2 at the default request (show_time = 5 > 0). -/
theorem C2_phase_list_witness :
    (listen_event NotiBoxEvent.default).noti_box.states =
      [(AnimationState.Start, { duration := 1/2, elapsed := 0, mode := TimerMode.Once,
                                finished := false, justFinished := false }),
       (AnimationState.Middle, { duration := NotiBoxEvent.default.show_time, elapsed := 0,
                                 mode := TimerMode.Once, finished := false,
                                 justFinished := false }),
       (AnimationState.End, { duration := 1/2, elapsed := 0, mode := TimerMode.Once,
                              finished := false, justFinished := false })] :=
  (C2_phase_list NotiBoxEvent.default).1 (by norm_num [NotiBoxEvent.default])


/-- All nine anchor values, as a list (used to state totality of the
position resolver over the closed enumeration). -/
def allPositions : List NotiPosition :=
  [NotiPosition.TopRight, NotiPosition.TopLeft, NotiPosition.TopMid,
   NotiPosition.MidLeft, NotiPosition.Center, NotiPosition.MidRight,
   NotiPosition.BotLeft, NotiPosition.BotMid, NotiPosition.BotRight]

/-- The 3 x 3 Cartesian product of the horizontal and vertical alignment
values the claim refers to. -/
def alignmentProduct : List (JustifySelf × AlignSelf) :=
  [(JustifySelf.Start, AlignSelf.FlexStart), (JustifySelf.Start, AlignSelf.Center),
   (JustifySelf.Start, AlignSelf.FlexEnd),
   (JustifySelf.Center, AlignSelf.FlexStart), (JustifySelf.Center, AlignSelf.Center),
   (JustifySelf.Center, AlignSelf.FlexEnd),
   (JustifySelf.End, AlignSelf.FlexStart), (JustifySelf.End, AlignSelf.Center),
   (JustifySelf.End, AlignSelf.FlexEnd)]

/-- Claim C4: pos_to_style is total on the nine anchors (every anchor is in
the enumeration list), and the nine (justify_self, align_self) result pairs
are pairwise distinct and form exactly the Cartesian product of the
horizontal values Start, Center, End with the vertical values FlexStart,
Center, FlexEnd. -/
theorem C4_position_pairs_product :
    (∀ p : NotiPosition, p ∈ allPositions) ∧
    (allPositions.map
      (fun p => ((pos_to_style p).justify_self, (pos_to_style p).align_self))).Nodup ∧
    (allPositions.map
      (fun p => ((pos_to_style p).justify_self, (pos_to_style p).align_self))).Perm
      alignmentProduct := by
  refine ⟨fun p => ?_, by decide, by decide⟩
  cases p <;> simp [allPositions]

/-- Claim C7: the spawned border color is the request's background color with
alpha 0.4, and the spawned (displayed) background and text colors are the
request's background and text colors with alpha 0. -/
theorem C7_spawn_colors (noti : NotiBoxEvent) :
    (listen_event noti).border_color = { noti.background_color with alpha := 2/5 } ∧
    (listen_event noti).background_color = { noti.background_color with alpha := 0 } ∧
    (listen_event noti).text_color = { noti.text_color with alpha := 0 } :=
  ⟨rfl, rfl, rfl⟩

/-- Claim C10: the spawned node ignores the request's width and height
fields: whatever they are, the node always has width and height
Val.Percent 20 and a 5 px margin on all sides. -/
theorem C10_fixed_node_size (noti : NotiBoxEvent) :
    (listen_event noti).node.width = Val.Percent 20 ∧
    (listen_event noti).node.height = Val.Percent 20 ∧
    (listen_event noti).node.margin = UiRect.all (Val.Px 5) := by
  have h : (listen_event noti).node = pos_to_style noti.pos := rfl
  rw [h]
  cases noti.pos <;> exact ⟨rfl, rfl, rfl⟩

/-! ## Structure of one countdown tick -/

/-- Index of the first phase whose timer is not yet finished. -/
def firstUnfinished : List (AnimationState × Timer) → Option ℕ
  | [] => none
  | (_, t) :: rest => if t.finished then (firstUnfinished rest).map (· + 1) else some 0

/-- The opacity the countdown loop writes for a phase, as a function of the
phase's already-ticked timer. -/
def phaseOpacity : AnimationState → Timer → ℚ
  | AnimationState.Start, t => startAlpha t
  | AnimationState.Middle, _ => 1
  | AnimationState.End, t => endAlpha t

/-- Whether the countdown loop requests a despawn for a phase, as a function
of the phase's already-ticked timer. -/
def phaseDespawn : AnimationState → Timer → Bool
  | AnimationState.End, t => t.justFinished
  | _, _ => false

/-- When every timer is finished, a countdown tick is a no-op. -/
theorem countdownStates_of_none (delta : ℚ) (s : List (AnimationState × Timer))
    (bg tc : Color) (h : firstUnfinished s = none) :
    countdownStates delta s bg tc = (s, bg, tc, false) := by
  induction s generalizing bg tc with
  | nil => rfl
  | cons p rest ih =>
    obtain ⟨st, t⟩ := p
    by_cases hf : t.finished
    · simp only [firstUnfinished, if_pos hf, Option.map_eq_none'] at h
      simp [countdownStates, hf, ih bg tc h]
    · simp [firstUnfinished, hf] at h

/-- A countdown tick replaces exactly the first unfinished phase's timer by
its ticked value, writes that phase's opacity into both colors, and requests
a despawn exactly when that phase is End and its timer just finished. -/
theorem countdownStates_of_some (delta : ℚ) (s : List (AnimationState × Timer))
    (bg tc : Color) (i : ℕ) (st : AnimationState) (t : Timer)
    (h : firstUnfinished s = some i) (he : s[i]? = some (st, t)) :
    countdownStates delta s bg tc =
      (s.set i (st, t.tick delta),
       bg.set_alpha (phaseOpacity st (t.tick delta)),
       tc.set_alpha (phaseOpacity st (t.tick delta)),
       phaseDespawn st (t.tick delta)) := by
  induction s generalizing bg tc i with
  | nil => simp [firstUnfinished] at h
  | cons p rest ih =>
    obtain ⟨st0, t0⟩ := p
    by_cases hf : t0.finished
    · simp only [firstUnfinished, if_pos hf, Option.map_eq_some'] at h
      obtain ⟨j, hj, hji⟩ := h
      subst hji
      simp only [List.getElem?_cons_succ] at he
      simp [countdownStates, hf, ih bg tc j hj he]
    · simp only [firstUnfinished, if_neg hf] at h
      cases h
      simp only [List.getElem?_cons_zero, Option.some.injEq] at he
      cases he
      cases st <;> simp [countdownStates, hf, phaseOpacity, phaseDespawn]

/-! ## Phase-order invariant -/

/-- Every phase in the list is untouched: timer unfinished with zero elapsed. -/
def allFresh (s : List (AnimationState × Timer)) : Bool :=
  s.all (fun p => !p.2.finished && p.2.elapsed == 0)

/-- The phase-list invariant maintained by the countdown system: some prefix
of phases is finished, and every phase after the first unfinished one is
still untouched (unfinished, zero elapsed). -/
def phasesInv : List (AnimationState × Timer) → Bool
  | [] => true
  | (_, t) :: rest => if t.finished then phasesInv rest else allFresh rest

/-- Number of active phases: timer started (nonzero elapsed) but unfinished. -/
def activeCount (s : List (AnimationState × Timer)) : ℕ :=
  (s.filter (fun p => !p.2.finished && !(p.2.elapsed == 0))).length

theorem phasesInv_of_fresh (s : List (AnimationState × Timer))
    (h : allFresh s = true) : phasesInv s = true := by
  induction s with
  | nil => rfl
  | cons p rest ih =>
    obtain ⟨st, t⟩ := p
    simp only [allFresh, List.all_cons, Bool.and_eq_true, Bool.not_eq_true'] at h
    simp [phasesInv, allFresh, h.1.1, h.2]

theorem filter_active_eq_nil (s : List (AnimationState × Timer))
    (h : allFresh s = true) :
    s.filter (fun p => !p.2.finished && !(p.2.elapsed == 0)) = [] := by
  induction s with
  | nil => rfl
  | cons p rest ih =>
    simp only [allFresh, List.all_cons, Bool.and_eq_true] at h
    simp only [List.filter_cons]
    rw [if_neg (by simp_all), ih h.2]

/-- A freshly spawned record satisfies the phase invariant. -/
theorem phasesInv_spawn (noti : NotiBoxEvent) :
    phasesInv (listen_event noti).noti_box.states = true := by
  by_cases h : 0 < noti.show_time <;>
    simp [listen_event, h, phasesInv, allFresh, Timer.from_seconds]

/-- One countdown tick preserves the phase invariant. -/
theorem phasesInv_step (delta : ℚ) (bg tc : Color)
    (s : List (AnimationState × Timer)) (h : phasesInv s = true) :
    phasesInv (countdownStates delta s bg tc).1 = true := by
  induction s generalizing bg tc with
  | nil => simpa [countdownStates] using h
  | cons p rest ih =>
    obtain ⟨st, t⟩ := p
    by_cases hf : t.finished
    · have hr : phasesInv rest = true := by simpa [phasesInv, hf] using h
      simp [countdownStates, hf, phasesInv, ih bg tc hr]
    · have hall : allFresh rest = true := by simpa [phasesInv, hf] using h
      by_cases h2 : (t.tick delta).finished <;>
        cases st <;>
          simp [countdownStates, hf, phasesInv, h2, hall, phasesInv_of_fresh rest hall]

/-- The phase invariant bounds the number of active phases by one. -/
theorem activeCount_le_one (s : List (AnimationState × Timer))
    (h : phasesInv s = true) : activeCount s ≤ 1 := by
  induction s with
  | nil => simp [activeCount]
  | cons p rest ih =>
    obtain ⟨st, t⟩ := p
    by_cases hf : t.finished
    · have hr := ih (by simpa [phasesInv, hf] using h)
      simpa [activeCount, List.filter_cons, hf] using hr
    · have hall : allFresh rest = true := by simpa [phasesInv, hf] using h
      have hnil := filter_active_eq_nil rest hall
      by_cases hz : t.elapsed == 0 <;>
        simp [activeCount, List.filter_cons, hf, hz, hnil]

/-- Phase lists reachable in the program: produced by the event listener for
some request, then evolved by countdown ticks with nonnegative frame deltas. -/
inductive ReachableStates : List (AnimationState × Timer) → Prop
  | spawn (noti : NotiBoxEvent) : ReachableStates (listen_event noti).noti_box.states
  | step (s : List (AnimationState × Timer)) (delta : ℚ) (bg tc : Color)
      (hd : 0 ≤ delta) (h : ReachableStates s) :
      ReachableStates (countdownStates delta s bg tc).1

/-- Claim C3: every reachable phase list satisfies the invariant (finished
phases form a prefix; every phase after the first unfinished one is
untouched), has at most one active phase, and a countdown tick advances only
the first unfinished phase — it is a no-op on the list when all phases are
finished, and otherwise replaces exactly the entry at the first unfinished
index by its ticked timer, leaving every other phase unchanged. -/
theorem C3_single_active_phase (s : List (AnimationState × Timer))
    (h : ReachableStates s) :
    phasesInv s = true ∧ activeCount s ≤ 1 ∧
    (∀ delta bg tc,
      (firstUnfinished s = none → (countdownStates delta s bg tc).1 = s) ∧
      (∀ i st t, firstUnfinished s = some i → s[i]? = some (st, t) →
        (countdownStates delta s bg tc).1 = s.set i (st, t.tick delta))) := by
  have hinv : phasesInv s = true := by
    induction h with
    | spawn noti => exact phasesInv_spawn noti
    | step s delta bg tc hd h ih => exact phasesInv_step delta bg tc s ih
  refine ⟨hinv, activeCount_le_one s hinv, fun delta bg tc => ⟨fun hn => ?_, ?_⟩⟩
  · rw [countdownStates_of_none delta s bg tc hn]
  · intro i st t hi he
    rw [countdownStates_of_some delta s bg tc i st t hi he]

/-- Witness for C3 at the phase list spawned for the default request. -/
theorem C3_single_active_phase_witness :
    phasesInv (listen_event NotiBoxEvent.default).noti_box.states = true ∧
    activeCount (listen_event NotiBoxEvent.default).noti_box.states ≤ 1 :=
  ⟨(C3_single_active_phase _ (ReachableStates.spawn NotiBoxEvent.default)).1,
   (C3_single_active_phase _ (ReachableStates.spawn NotiBoxEvent.default)).2.1⟩

/-! ## Indefinite notifications -/

theorem runFrames_cons (d : ℚ) (ds : List ℚ) (s : Option BoxEntity) :
    runFrames (d :: ds) s = runFrames ds (frameStep d s) := rfl

/-- A frame is a complete no-op on an entity whose phase list is empty. -/
theorem frameStep_empty_states (e : BoxEntity) (he : e.noti_box.states = [])
    (d : ℚ) : frameStep d (some e) = some e := by
  obtain ⟨⟨st⟩, bgc, bdc, tcc⟩ := e
  simp only at he
  subst he
  rfl

def c5Event : NotiBoxEvent := { NotiBoxEvent.default with show_time := 0 }

/-- Claim C5: a request with show_time ≤ 0 yields an empty phase list, and the
countdown system never changes or despawns its entity, for any number of
frames with any deltas; such an entity is removed only through the click
listener, which despawns exactly on the Pressed interaction. -/
theorem C5_indefinite_never_despawned (noti : NotiBoxEvent)
    (h : noti.show_time ≤ 0) (deltas : List ℚ) :
    runFrames deltas (some (listen_event noti).entity) =
      some (listen_event noti).entity ∧
    (∀ i : Interaction, listen_click i = true ↔ i = Interaction.Pressed) := by
  constructor
  · have hstates : (listen_event noti).entity.noti_box.states = [] := by
      simp [listen_event, SpawnedBox.entity, not_lt.mpr h]
    generalize hgen : (listen_event noti).entity = e at hstates ⊢
    induction deltas with
    | nil => rfl
    | cons d ds ih =>
      rw [runFrames_cons, frameStep_empty_states e hstates d, ih]
  · intro i
    cases i <;> simp [listen_click]

/-- Witness for C5: show_time = 0 and a single 1000 s frame. -/
theorem C5_indefinite_never_despawned_witness :
    runFrames [1000] (some (listen_event c5Event).entity) =
      some (listen_event c5Event).entity :=
  (C5_indefinite_never_despawned c5Event
    (by norm_num [c5Event, NotiBoxEvent.default]) [1000]).1

/-! ## Timer arithmetic -/

/-- Well-formedness of the plugin's timers: one-shot mode, elapsed within
the (positive) duration. Holds for every timer the plugin creates and is
preserved by ticking with a nonnegative delta. -/
def TimerWF (t : Timer) : Prop :=
  t.mode = TimerMode.Once ∧ 0 ≤ t.elapsed ∧ t.elapsed ≤ t.duration ∧ 0 < t.duration

theorem tick_of_finished (t : Timer) (delta : ℚ) (hm : t.mode = TimerMode.Once)
    (hf : t.finished = true) : t.tick delta = { t with justFinished := false } := by
  simp [Timer.tick, hm, hf]

theorem tick_of_reaching (t : Timer) (delta : ℚ) (hm : t.mode = TimerMode.Once)
    (hf : t.finished = false) (hge : t.duration ≤ t.elapsed + delta) :
    t.tick delta =
      { t with elapsed := t.duration, finished := true, justFinished := true } := by
  simp [Timer.tick, hm, hf, hge]

theorem tick_of_running (t : Timer) (delta : ℚ) (hm : t.mode = TimerMode.Once)
    (hf : t.finished = false) (hlt : t.elapsed + delta < t.duration) :
    t.tick delta =
      { t with elapsed := t.elapsed + delta, finished := false,
               justFinished := false } := by
  simp [Timer.tick, hm, hf, not_le.mpr hlt]

/-- Ticking an unfinished one-shot timer clamps elapsed at the duration. -/
theorem tick_elapsed (t : Timer) (delta : ℚ) (hm : t.mode = TimerMode.Once)
    (hf : t.finished = false) :
    (t.tick delta).elapsed = min (t.elapsed + delta) t.duration := by
  by_cases hge : t.duration ≤ t.elapsed + delta
  · rw [tick_of_reaching t delta hm hf hge, min_eq_right hge]
  · rw [tick_of_running t delta hm hf (not_le.mp hge),
        min_eq_left (le_of_lt (not_le.mp hge))]

/-- Ticking never changes a one-shot timer's duration. -/
theorem tick_duration (t : Timer) (delta : ℚ) (hm : t.mode = TimerMode.Once) :
    (t.tick delta).duration = t.duration := by
  by_cases hf : t.finished = true
  · rw [tick_of_finished t delta hm hf]
  · have hf2 : t.finished = false := by simpa using hf
    by_cases hge : t.duration ≤ t.elapsed + delta
    · rw [tick_of_reaching t delta hm hf2 hge]
    · rw [tick_of_running t delta hm hf2 (not_le.mp hge)]

theorem timerWF_tick {t : Timer} {delta : ℚ} (h : TimerWF t) (hd : 0 ≤ delta) :
    TimerWF (t.tick delta) := by
  obtain ⟨hm, h0, hle, hpos⟩ := h
  by_cases hf : t.finished = true
  · rw [tick_of_finished t delta hm hf]
    exact ⟨hm, h0, hle, hpos⟩
  · have hf2 : t.finished = false := by simpa using hf
    by_cases hge : t.duration ≤ t.elapsed + delta
    · rw [tick_of_reaching t delta hm hf2 hge]
      exact ⟨hm, le_of_lt hpos, le_refl _, hpos⟩
    · rw [tick_of_running t delta hm hf2 (not_le.mp hge)]
      exact ⟨hm, add_nonneg h0 hd, le_of_lt (not_le.mp hge), hpos⟩

/-! ## Claim C6: opacity monotonicity within Start and End phases -/

/-- Claim C6: for an unfinished one-shot timer with positive duration and
nonnegative elapsed time, ticking by a larger delta (more elapsed time within
the phase) never decreases the Start-phase opacity elapsed/duration and never
increases the End-phase opacity remaining/duration. -/
theorem C6_opacity_monotone (t : Timer) (d1 d2 : ℚ)
    (hm : t.mode = TimerMode.Once) (hf : t.finished = false)
    (h0 : 0 ≤ t.elapsed) (hpos : 0 < t.duration)
    (hd1 : 0 ≤ d1) (hd12 : d1 ≤ d2) :
    startAlpha (t.tick d1) ≤ startAlpha (t.tick d2) ∧
    endAlpha (t.tick d2) ≤ endAlpha (t.tick d1) := by
  have hmono : (t.tick d1).elapsed ≤ (t.tick d2).elapsed := by
    rw [tick_elapsed t d1 hm hf, tick_elapsed t d2 hm hf]
    exact min_le_min (by linarith) le_rfl
  constructor
  · unfold startAlpha Timer.elapsed_secs
    rw [tick_duration t d1 hm, tick_duration t d2 hm]
    exact div_le_div_of_nonneg_right hmono hpos.le
  · unfold endAlpha Timer.remaining_secs
    rw [tick_duration t d1 hm, tick_duration t d2 hm]
    exact div_le_div_of_nonneg_right (by linarith) hpos.le

/-- Witness for C6: the Start/End animation timer (0.5 s), deltas 0.1 ≤ 0.2. -/
theorem C6_opacity_monotone_witness :
    startAlpha ((Timer.from_seconds (1/2) TimerMode.Once).tick (1/10)) ≤
      startAlpha ((Timer.from_seconds (1/2) TimerMode.Once).tick (1/5)) ∧
    endAlpha ((Timer.from_seconds (1/2) TimerMode.Once).tick (1/5)) ≤
      endAlpha ((Timer.from_seconds (1/2) TimerMode.Once).tick (1/10)) :=
  C6_opacity_monotone (Timer.from_seconds (1/2) TimerMode.Once) (1/10) (1/5)
    rfl rfl (le_refl 0) (by norm_num [Timer.from_seconds]) (by norm_num) (by norm_num)

/-! ## Claim C8: written alpha stays in the unit interval -/

/-- Every timer in the list is well-formed. -/
def statesWF (s : List (AnimationState × Timer)) : Prop := ∀ p ∈ s, TimerWF p.2

theorem firstUnfinished_get (s : List (AnimationState × Timer)) (i : ℕ)
    (h : firstUnfinished s = some i) :
    ∃ st t, s[i]? = some (st, t) ∧ t.finished = false := by
  induction s generalizing i with
  | nil => simp [firstUnfinished] at h
  | cons p rest ih =>
    obtain ⟨st0, t0⟩ := p
    by_cases hf : t0.finished
    · simp only [firstUnfinished, if_pos hf, Option.map_eq_some'] at h
      obtain ⟨j, hj, hji⟩ := h
      subst hji
      obtain ⟨st, t, hget, hfin⟩ := ih j hj
      exact ⟨st, t, by simpa [List.getElem?_cons_succ] using hget, hfin⟩
    · simp only [firstUnfinished, if_neg hf] at h
      cases h
      exact ⟨st0, t0, by simp, by simpa using hf⟩

theorem statesWF_spawn (noti : NotiBoxEvent) :
    statesWF (listen_event noti).noti_box.states := by
  intro p hp
  by_cases h : 0 < noti.show_time
  · simp only [listen_event, if_pos h] at hp
    simp only [List.mem_cons, List.mem_singleton, List.not_mem_nil, or_false] at hp
    rcases hp with rfl | rfl | rfl
    · exact ⟨rfl, le_refl 0,
        by norm_num [Timer.from_seconds, DEFAULT_ANIMATION_DURATION],
        by norm_num [Timer.from_seconds, DEFAULT_ANIMATION_DURATION]⟩
    · exact ⟨rfl, le_refl 0, by simpa [Timer.from_seconds] using h.le,
        by simpa [Timer.from_seconds] using h⟩
    · exact ⟨rfl, le_refl 0,
        by norm_num [Timer.from_seconds, DEFAULT_ANIMATION_DURATION],
        by norm_num [Timer.from_seconds, DEFAULT_ANIMATION_DURATION]⟩
  · simp [listen_event, if_neg h] at hp

theorem statesWF_step (delta : ℚ) (bg tc : Color)
    (s : List (AnimationState × Timer)) (h : statesWF s) (hd : 0 ≤ delta) :
    statesWF (countdownStates delta s bg tc).1 := by
  cases hfu : firstUnfinished s with
  | none =>
    rw [countdownStates_of_none delta s bg tc hfu]
    exact h
  | some i =>
    obtain ⟨st, t, hget, hfin⟩ := firstUnfinished_get s i hfu
    rw [countdownStates_of_some delta s bg tc i st t hfu hget]
    intro p hp
    rcases List.mem_or_eq_of_mem_set hp with hmem | rfl
    · exact h p hmem
    · exact timerWF_tick (h (st, t) (List.getElem?_mem hget)) hd

theorem reachable_statesWF (s : List (AnimationState × Timer))
    (h : ReachableStates s) : statesWF s := by
  induction h with
  | spawn noti => exact statesWF_spawn noti
  | step s delta bg tc hd h ih => exact statesWF_step delta bg tc s ih hd

theorem phaseOpacity_mem_unit (st : AnimationState) (t : Timer) (h : TimerWF t) :
    0 ≤ phaseOpacity st t ∧ phaseOpacity st t ≤ 1 := by
  obtain ⟨hm, h0, hle, hpos⟩ := h
  cases st with
  | Start =>
    constructor
    · exact div_nonneg h0 hpos.le
    · rw [phaseOpacity, startAlpha, Timer.elapsed_secs, div_le_one hpos]
      exact hle
  | Middle => norm_num [phaseOpacity]
  | End =>
    constructor
    · exact div_nonneg (by simp [Timer.remaining_secs]; linarith) hpos.le
    · rw [phaseOpacity, endAlpha, Timer.remaining_secs, div_le_one hpos]
      linarith

/-- Claim C8: on any countdown tick of a reachable phase list with a
nonnegative delta, either no phase is ticked and the colors are untouched, or
the alpha written to both the background and the text color lies in [0, 1]
(elapsed never exceeds the duration in Start, remaining never exceeds the
duration in End). -/
theorem C8_written_alpha_in_unit (s : List (AnimationState × Timer))
    (bg tc : Color) (delta : ℚ) (h : ReachableStates s) (hd : 0 ≤ delta) :
    ((countdownStates delta s bg tc).2.1 = bg ∧
     (countdownStates delta s bg tc).2.2.1 = tc) ∨
    (0 ≤ (countdownStates delta s bg tc).2.1.alpha ∧
     (countdownStates delta s bg tc).2.1.alpha ≤ 1 ∧
     0 ≤ (countdownStates delta s bg tc).2.2.1.alpha ∧
     (countdownStates delta s bg tc).2.2.1.alpha ≤ 1) := by
  cases hfu : firstUnfinished s with
  | none =>
    rw [countdownStates_of_none delta s bg tc hfu]
    exact Or.inl ⟨rfl, rfl⟩
  | some i =>
    obtain ⟨st, t, hget, hfin⟩ := firstUnfinished_get s i hfu
    rw [countdownStates_of_some delta s bg tc i st t hfu hget]
    have hwf : TimerWF (t.tick delta) :=
      timerWF_tick (reachable_statesWF s h (st, t) (List.getElem?_mem hget)) hd
    obtain ⟨hge0, hle1⟩ := phaseOpacity_mem_unit st (t.tick delta) hwf
    exact Or.inr ⟨hge0, hle1, hge0, hle1⟩

/-- Witness for C8 at the default spawn, black background, white text,
delta 0.25. -/
theorem C8_written_alpha_in_unit_witness :
    (((countdownStates (1/4) (listen_event NotiBoxEvent.default).noti_box.states
        Color.BLACK Color.WHITE).2.1 = Color.BLACK ∧
      (countdownStates (1/4) (listen_event NotiBoxEvent.default).noti_box.states
        Color.BLACK Color.WHITE).2.2.1 = Color.WHITE) ∨
     (0 ≤ (countdownStates (1/4) (listen_event NotiBoxEvent.default).noti_box.states
        Color.BLACK Color.WHITE).2.1.alpha ∧
      (countdownStates (1/4) (listen_event NotiBoxEvent.default).noti_box.states
        Color.BLACK Color.WHITE).2.1.alpha ≤ 1 ∧
      0 ≤ (countdownStates (1/4) (listen_event NotiBoxEvent.default).noti_box.states
        Color.BLACK Color.WHITE).2.2.1.alpha ∧
      (countdownStates (1/4) (listen_event NotiBoxEvent.default).noti_box.states
        Color.BLACK Color.WHITE).2.2.1.alpha ≤ 1)) :=
  C8_written_alpha_in_unit (listen_event NotiBoxEvent.default).noti_box.states
    Color.BLACK Color.WHITE (1/4)
    (ReachableStates.spawn NotiBoxEvent.default) (by norm_num)

/-! ## Claim C9: which visual attributes the countdown system mutates -/

/-- Counterexample to C9 as stated: one countdown frame (delta 0.25) on the
entity spawned for the default request ticks the Start phase and writes the
interpolated opacity 0.5 into the background and text colors, but the border
color is not mutated at all — the countdown query does not include it — and
keeps its creation-time alpha 0.4 ≠ 0.5. -/
theorem C9_counterexample :
    (countdownEntity (1/4)
      (listen_event NotiBoxEvent.default).entity).1.background_color.alpha = 1/2 ∧
    (countdownEntity (1/4)
      (listen_event NotiBoxEvent.default).entity).1.text_color.alpha = 1/2 ∧
    (countdownEntity (1/4) (listen_event NotiBoxEvent.default).entity).1.border_color =
      (listen_event NotiBoxEvent.default).entity.border_color ∧
    (countdownEntity (1/4)
      (listen_event NotiBoxEvent.default).entity).1.border_color.alpha = 2/5 ∧
    (2/5 : ℚ) ≠ 1/2 := by
  refine ⟨?_, ?_, ?_, ?_, by norm_num⟩ <;>
    norm_num [countdownEntity, countdownStates, Timer.tick, Timer.from_seconds,
      Timer.elapsed_secs, Timer.remaining_secs, startAlpha, endAlpha, Color.set_alpha,
      listen_event, pos_to_style, NotiBoxEvent.default, DEFAULT_ANIMATION_DURATION,
      BACKGROUND_COLOR, Color.BLACK, Color.WHITE, SpawnedBox.entity]

/-- Claim C9 (amended): on every frame in which a record with an unfinished
phase is ticked, the countdown system mutates the background and text colors
to the ticked phase's interpolated opacity; the border color is never mutated
by the countdown system and keeps its creation-time value. -/
theorem C9_amended_mutates_bg_text (e : BoxEntity) (delta : ℚ) (i : ℕ)
    (st : AnimationState) (t : Timer)
    (hi : firstUnfinished e.noti_box.states = some i)
    (he : e.noti_box.states[i]? = some (st, t)) :
    (countdownEntity delta e).1.border_color = e.border_color ∧
    (countdownEntity delta e).1.background_color =
      e.background_color.set_alpha (phaseOpacity st (t.tick delta)) ∧
    (countdownEntity delta e).1.text_color =
      e.text_color.set_alpha (phaseOpacity st (t.tick delta)) := by
  unfold countdownEntity
  rw [countdownStates_of_some delta e.noti_box.states e.background_color
    e.text_color i st t hi he]
  exact ⟨rfl, rfl, rfl⟩

/-- Witness for the amended C9 at the default spawn, Start phase, delta 0.25. -/
theorem C9_amended_mutates_bg_text_witness :
    (countdownEntity (1/4) (listen_event NotiBoxEvent.default).entity).1.border_color =
      (listen_event NotiBoxEvent.default).entity.border_color ∧
    (countdownEntity (1/4)
        (listen_event NotiBoxEvent.default).entity).1.background_color =
      (listen_event NotiBoxEvent.default).entity.background_color.set_alpha
        (phaseOpacity AnimationState.Start
          ((Timer.from_seconds DEFAULT_ANIMATION_DURATION TimerMode.Once).tick (1/4))) ∧
    (countdownEntity (1/4) (listen_event NotiBoxEvent.default).entity).1.text_color =
      (listen_event NotiBoxEvent.default).entity.text_color.set_alpha
        (phaseOpacity AnimationState.Start
          ((Timer.from_seconds DEFAULT_ANIMATION_DURATION TimerMode.Once).tick (1/4))) :=
  C9_amended_mutates_bg_text (listen_event NotiBoxEvent.default).entity (1/4) 0
    AnimationState.Start (Timer.from_seconds DEFAULT_ANIMATION_DURATION TimerMode.Once)
    (by norm_num [firstUnfinished, listen_event, SpawnedBox.entity, NotiBoxEvent.default,
      Timer.from_seconds])
    (by norm_num [listen_event, SpawnedBox.entity, NotiBoxEvent.default])

end BevyNotiBox
